import Mathlib

/-!
Verification development for the package xlog.

A shallow embedding of `xlog.go` and `xloggorm.go`.

* Go values of pointer type that may be nil are `Maybe` values.
* The package-level variables `textLogger` and `jsonLogger` are the two fields of `Globals`;
  `InitLevel` is a state transformer over them that also reports a panic.
* `InitLevel` receives a pointer to an `Option`; the level gate it builds is a closure over that
  pointer, so the embedded gate takes the pointee as it is when the gate is evaluated.
* The logging engine (zap), the rotation library and the database library are not part of the
  repository. What the code needs of them is embedded next to its use, each with the library
  function it follows.
-/

/-- Go pointer or interface value: `none` is nil. -/
abbrev Maybe (α : Type) : Type := Option α

namespace Xlog

/-! ## zapcore levels -/

/-- The type zapcore.Level, an int8 in the engine. -/
abbrev Level : Type := Int

def DebugLevel : Level := -1
def InfoLevel : Level := 0
def WarnLevel : Level := 1
def ErrorLevel : Level := 2
def DPanicLevel : Level := 3
def PanicLevel : Level := 4
def FatalLevel : Level := 5
/-- The engine's `_minLevel`. -/
def minLevel : Level := DebugLevel
/-- The engine's `_maxLevel`. -/
def maxLevel : Level := FatalLevel
/-- The engine's `InvalidLevel`, one above `_maxLevel`. -/
def InvalidLevel : Level := maxLevel + 1

/-- The method `Level.String` of zapcore: the lower-case name of a level. -/
def Level.String (l : Level) : String :=
  if l = DebugLevel then "debug"
  else if l = InfoLevel then "info"
  else if l = WarnLevel then "warn"
  else if l = ErrorLevel then "error"
  else if l = DPanicLevel then "dpanic"
  else if l = PanicLevel then "panic"
  else if l = FatalLevel then "fatal"
  else "Level(" ++ toString l ++ ")"

/-- The type zap.AtomicLevel: a cell holding one level. -/
structure AtomicLevel where
  l : Level
  deriving DecidableEq, Repr

def NewAtomicLevelAt (l : Level) : AtomicLevel := ⟨l⟩

/-- The method `AtomicLevel.Level`: the level the cell holds. -/
def AtomicLevel.Level (a : AtomicLevel) : Level := a.l

/-- Source: `zapLogLevel` (xlog.go 15-29). -/
def zapLogLevel (level : String) : AtomicLevel :=
  if level = "debug" then NewAtomicLevelAt DebugLevel
  else if level = "info" then NewAtomicLevelAt InfoLevel
  else if level = "warn" then NewAtomicLevelAt WarnLevel
  else if level = "error" then NewAtomicLevelAt ErrorLevel
  -- default is info level
  else NewAtomicLevelAt InfoLevel

/-! ## Option and its defaults -/

/-- Source: `Option` (xlog.go 32-50). Maps are association lists; `packageLogLevel` is a map that
is never made, so it may be nil. -/
structure Option where
  Name : String
  NoFile : Bool
  Format : String
  WritableStack : Bool
  Skip : Int
  WritableCaller : Bool
  Level : String
  Path : String
  FileName : String
  PackageLevel : List (String × String)
  ErrLogLevel : String
  ErrorPath : String
  MaxAge : Int
  MaxBackups : Nat
  MaxSize : Int
  Compress : Bool
  packageLogLevel : Maybe (List (String × Xlog.Level))
  deriving DecidableEq, Repr

def formatTXT : String := "txt"
def formatJSON : String := "json"
def formatBlank : String := "blank"
def timeFormat : String := "2006-01-02 15:04:05.999"
def DefaultLoggerName : String := "xlog"

/-- Source: `DefaultOption` (xlog.go 60-79). -/
def DefaultOption : Option :=
  { Name := DefaultLoggerName
    NoFile := false
    Format := formatTXT
    WritableCaller := true
    Skip := 1
    WritableStack := false
    Level := Level.String InfoLevel
    Path := "./logs"
    FileName := "xlog"
    PackageLevel := []
    ErrLogLevel := Level.String ErrorLevel
    ErrorPath := "./logs"
    MaxAge := 1
    MaxBackups := 3
    MaxSize := 1024 * 1024 * 10
    Compress := false
    packageLogLevel := none }

/-! ## The engine's encoder configuration, writers and cores -/

/-- The level encoders of zapcore. -/
inductive LevelEncoder where
  | LowercaseLevelEncoder
  | LowercaseColorLevelEncoder
  | CapitalLevelEncoder
  | CapitalColorLevelEncoder
  deriving DecidableEq, Repr

/-- The time encoders of zapcore the code builds: `TimeEncoderOfLayout layout`. -/
inductive TimeEncoder where
  | TimeEncoderOfLayout (layout : String)
  deriving DecidableEq, Repr

inductive CallerEncoder where
  | FullCallerEncoder
  | ShortCallerEncoder
  deriving DecidableEq, Repr

inductive DurationEncoder where
  | SecondsDurationEncoder
  | NanosDurationEncoder
  | MillisDurationEncoder
  | StringDurationEncoder
  deriving DecidableEq, Repr

/-- The fields of zapcore.EncoderConfig that `InitLevel` sets; the others keep their zero value. -/
structure EncoderConfig where
  MessageKey : String
  LevelKey : String
  TimeKey : String
  NameKey : String
  CallerKey : String
  FunctionKey : String
  StacktraceKey : String
  LineEnding : String
  EncodeLevel : LevelEncoder
  EncodeTime : TimeEncoder
  EncodeCaller : CallerEncoder
  EncodeDuration : DurationEncoder
  deriving DecidableEq, Repr

def DefaultLineEnding : String := "\n"

/-- Durations are int64 nanosecond counts, as in Go's `time` package. -/
abbrev Duration : Type := Int

def Millisecond : Duration := 1000000
def Hour : Duration := 3600 * 1000 * Millisecond

/-- The options of the rotation library that `newRotateLog` passes. -/
inductive RotateOption where
  | WithLinkName (s : String)
  | WithRotationTime (d : Duration)
  | WithRotationSize (n : Int)
  | WithRotationCount (n : Nat)
  deriving DecidableEq, Repr

/-- A rotated-file writer, identified by the arguments `rotatelogs.New` was called with. -/
structure RotateLogs where
  pattern : String
  options : List RotateOption
  deriving DecidableEq, Repr

/-- The write destinations of a core: the process's standard output, a locked destination
(`zapcore.Lock`), a rotated-file writer made a destination (`zapcore.AddSync`). -/
inductive WriteSyncer where
  | Stdout
  | Lock (ws : WriteSyncer)
  | AddSync (w : RotateLogs)
  deriving DecidableEq, Repr

/-- True for a destination that is a rotated file. -/
def WriteSyncer.isFile : WriteSyncer → Bool
  | .AddSync _ => true
  | _ => false

/-- True for a destination that ends at standard output. -/
def WriteSyncer.isStdout : WriteSyncer → Bool
  | .Stdout => true
  | .Lock ws => ws.isStdout
  | .AddSync _ => false

/-- A `zap.LevelEnablerFunc` that closes over the pointer `opt`: its first argument is the
`Option` the pointer refers to at the moment the function is called. -/
abbrev LevelEnablerFunc : Type := Option → Level → Bool

/-- The engine's `ioCore`, what `zapcore.NewCore` returns. -/
structure ioCore (Enc : Type) where
  enc : Enc
  out : WriteSyncer
  LevelEnabler : LevelEnablerFunc

def NewCore {Enc : Type} (enc : Enc) (ws : WriteSyncer) (enab : LevelEnablerFunc) : ioCore Enc :=
  ⟨enc, ws, enab⟩

/-- The cores of zapcore the code can build: the no-op core, one ioCore, a tee of ioCores. -/
inductive Core (Enc : Type) where
  | nop
  | io (c : ioCore Enc)
  | multi (cs : List (ioCore Enc))

/-- The function `zapcore.NewTee`: no core gives the no-op core, one core gives that core,
more give a tee. -/
def NewTee {Enc : Type} (cores : List (ioCore Enc)) : Core Enc :=
  match cores with
  | [] => .nop
  | [c] => .io c
  | cs => .multi cs

/-- The method `Enabled` of an ioCore: its level enabler decides. -/
def ioCore.Enabled {Enc : Type} (c : ioCore Enc) (cur : Option) (lvl : Level) : Bool :=
  c.LevelEnabler cur lvl

/-- The method `Check` of an ioCore: it joins the cores that will write when it is enabled. -/
def ioCore.Check {Enc : Type} (c : ioCore Enc) (cur : Option) (lvl : Level)
    (ce : List (ioCore Enc)) : List (ioCore Enc) :=
  if c.Enabled cur lvl then ce ++ [c] else ce

def Core.Enabled {Enc : Type} (core : Core Enc) (cur : Option) (lvl : Level) : Bool :=
  match core with
  | .nop => false
  | .io c => c.Enabled cur lvl
  | .multi cs => cs.any (fun c => c.Enabled cur lvl)

def Core.Check {Enc : Type} (core : Core Enc) (cur : Option) (lvl : Level)
    (ce : List (ioCore Enc)) : List (ioCore Enc) :=
  match core with
  | .nop => ce
  | .io c => c.Check cur lvl ce
  | .multi cs => cs.foldl (fun ce c => c.Check cur lvl ce) ce

/-- The levels from `_minLevel` to `_maxLevel`, in order. -/
def levelRange : List Level :=
  [DebugLevel, InfoLevel, WarnLevel, ErrorLevel, DPanicLevel, PanicLevel, FatalLevel]

/-- The function `zapcore.LevelOf` at an enabler that has no `Level` method: the first level
from `_minLevel` up that the enabler enables, `InvalidLevel` when there is none. -/
def LevelOf (enab : Level → Bool) : Level :=
  match levelRange.find? enab with
  | some lvl => lvl
  | none => InvalidLevel

/-- The method `Level` of an ioCore: `LevelOf` its level enabler. -/
def ioCore.Level {Enc : Type} (c : ioCore Enc) (cur : Option) : Xlog.Level :=
  LevelOf (c.LevelEnabler cur)

/-- The function `zapcore.LevelOf` at a core: a tee gives the least level of its cores,
starting from `_maxLevel`; the no-op core enables nothing. -/
def Core.Level {Enc : Type} (core : Core Enc) (cur : Option) : Xlog.Level :=
  match core with
  | .nop => LevelOf (fun _ => false)
  | .io c => c.Level cur
  | .multi cs => cs.foldl (fun minLvl c => if c.Level cur < minLvl then c.Level cur else minLvl) maxLevel

/-! ## The engine's loggers -/

/-- The logger options `InitLevel` passes to `zap.New`. -/
inductive ZapOption where
  | AddCaller
  | AddCallerSkip (skip : Int)
  | AddStacktrace (lvl : Level)
  deriving DecidableEq, Repr

/-- The type zap.Logger: its core and what the options set. -/
structure Logger (Enc : Type) where
  core : Core Enc
  addCaller : Bool
  callerSkip : Int
  addStack : Maybe Level

def ZapOption.apply {Enc : Type} (o : ZapOption) (log : Logger Enc) : Logger Enc :=
  match o with
  | .AddCaller => { log with addCaller := true }
  | .AddCallerSkip skip => { log with callerSkip := log.callerSkip + skip }
  | .AddStacktrace lvl => { log with addStack := some lvl }

/-- The function `zap.New`: a logger over the core with the options applied in order. -/
def zapNew {Enc : Type} (core : Core Enc) (options : List ZapOption) : Logger Enc :=
  options.foldl (fun log o => o.apply log) ⟨core, false, 0, none⟩

/-- The type zap.SugaredLogger. -/
structure SugaredLogger (Enc : Type) where
  base : Logger Enc

/-- The method `Logger.Sugar`: the sugared logger skips two more callers. -/
def Logger.Sugar {Enc : Type} (log : Logger Enc) : SugaredLogger Enc :=
  ⟨{ log with callerSkip := log.callerSkip + 2 }⟩

/-- The method `SugaredLogger.Level`: `LevelOf` the core. -/
def SugaredLogger.Level {Enc : Type} (s : SugaredLogger Enc) (cur : Option) : Xlog.Level :=
  s.base.core.Level cur

/-- The cores a record of level `lvl` is written by (the engine's `Logger.check` followed by
`CheckedEntry.Write`): none when the level is below `DPanicLevel` and the core is not enabled,
else the cores that `Check` collects. -/
def SugaredLogger.check {Enc : Type} (s : SugaredLogger Enc) (cur : Option) (lvl : Xlog.Level) :
    List (ioCore Enc) :=
  if lvl < DPanicLevel && !s.base.core.Enabled cur lvl then []
  else s.base.core.Check cur lvl []

/-- The destinations a record of level `lvl` logged through `s` is written to, in order. -/
def SugaredLogger.writes {Enc : Type} (s : SugaredLogger Enc) (cur : Option) (lvl : Xlog.Level) :
    List WriteSyncer :=
  (s.check cur lvl).map (fun c => c.out)

/-! ## Initialisation -/

/-- What the code takes from outside `xlog.go` and `xloggorm.go`. `NewJSONEncoder` and
`NewConsoleEncoder` are functions of the package whose source is not at hand; the encoders
they return are of an arbitrary type `Enc`. `rotatelogsNew pattern options` is the error
`rotatelogs.New` returns for these arguments, nil when it succeeds. `durationString d` is the
text `fmt.Sprintf` gives a duration for the verb `%v`. -/
structure Env (Enc : Type) where
  NewJSONEncoder : Option → EncoderConfig → Enc
  NewConsoleEncoder : Option → EncoderConfig → Enc
  rotatelogsNew : String → List RotateOption → Maybe String
  durationString : Duration → String

/-- The package-level variables `textLogger` and `jsonLogger` (xlog.go 12-13). -/
structure Globals (Enc : Type) where
  textLogger : Maybe (SugaredLogger Enc)
  jsonLogger : Maybe (SugaredLogger Enc)

/-- The state of the package before `InitLevel` has run: both loggers nil. -/
def Globals.initial {Enc : Type} : Globals Enc := ⟨none, none⟩

/-- Source: `newRotateLog` (xlog.go 136-150). An error of `rotatelogs.New` is a panic, here
`Except.error`. -/
def newRotateLog {Enc : Type} (E : Env Enc) (opt : Option) (p suffix : String) :
    Except String RotateLogs :=
  let pattern := p ++ "/" ++ opt.FileName ++ ".%Y%m%d%H" ++ suffix
  let options := [RotateOption.WithLinkName opt.FileName,
    RotateOption.WithRotationTime (Hour * 24),
    RotateOption.WithRotationSize opt.MaxSize,
    RotateOption.WithRotationCount opt.MaxBackups]
  match E.rotatelogsNew pattern options with
  | some err => .error err
  | none => .ok ⟨pattern, options⟩

/-- Source: the closure `lowPriority` of `InitLevel` (xlog.go 103-105). The closure captures
the pointer `opt`; `cur` is the `Option` that pointer refers to when the closure is called. -/
def lowPriority : LevelEnablerFunc := fun cur lvl =>
  decide (lvl ≥ (zapLogLevel cur.Level).Level)

/-- Source: `InitLevel` (xlog.go 81-134). `opt` is the value the pointer refers to during the
call. The result is the package-level variables after the call and the panic value when the
call panicked (nil when it returned). -/
def InitLevel {Enc : Type} (E : Env Enc) (opt : Option) (g : Globals Enc) :
    Globals Enc × Maybe String :=
  let cfg : EncoderConfig :=
    { MessageKey := "msg"
      LevelKey := "level"
      TimeKey := "time"
      NameKey := "logger"
      CallerKey := "file"
      FunctionKey := "func"
      StacktraceKey := "stack"
      LineEnding := DefaultLineEnding
      EncodeLevel := .CapitalColorLevelEncoder
      EncodeTime := .TimeEncoderOfLayout timeFormat
      EncodeCaller := .ShortCallerEncoder
      EncodeDuration := .SecondsDurationEncoder }
  let consolecft := cfg
  let cfg := if !opt.NoFile then { cfg with EncodeLevel := .CapitalLevelEncoder } else cfg
  let consolecft :=
    if !opt.NoFile then { consolecft with EncodeLevel := .CapitalColorLevelEncoder }
    else consolecft
  let lowPriority : LevelEnablerFunc := Xlog.lowPriority
  let consoleDebugging := WriteSyncer.Lock .Stdout
  match newRotateLog E opt opt.Path ".json.log" with
  | .error err => (g, some err)
  | .ok jsonInfoWriter =>
    let jsonEncoderZap := E.NewJSONEncoder opt cfg
    let jsonCore := NewTee
      [NewCore jsonEncoderZap (.AddSync jsonInfoWriter) lowPriority,
       NewCore jsonEncoderZap consoleDebugging lowPriority]
    let zapOption : List ZapOption := []
    let zapOption :=
      if opt.WritableCaller then zapOption ++ [.AddCaller, .AddCallerSkip opt.Skip]
      else zapOption
    let zapOption :=
      if opt.WritableStack then zapOption ++ [.AddStacktrace ErrorLevel] else zapOption
    let jsonLog := zapNew jsonCore zapOption
    let g := { g with jsonLogger := some jsonLog.Sugar }
    let textEncoder := E.NewConsoleEncoder opt cfg
    let textEncoderConsole := E.NewConsoleEncoder opt consolecft
    match newRotateLog E opt opt.Path ".log" with
    | .error err => (g, some err)
    | .ok textInfoWriter =>
      let textCore := NewTee
        [NewCore textEncoder (.AddSync textInfoWriter) lowPriority,
         NewCore textEncoderConsole consoleDebugging lowPriority]
      let testLog := zapNew textCore zapOption
      ({ g with textLogger := some testLog.Sugar }, none)

/-- Source: `GetTextLogger` (xlog.go 283-285). -/
def GetTextLogger {Enc : Type} (g : Globals Enc) : Maybe (SugaredLogger Enc) :=
  g.textLogger

/-- The cores of the logger a package-level variable holds, in the order of the tee; the empty
list when the variable is nil. -/
def coresOf {Enc : Type} (s : Maybe (SugaredLogger Enc)) : List (ioCore Enc) :=
  match s with
  | none => []
  | some l =>
    match l.base.core with
    | .nop => []
    | .io c => [c]
    | .multi cs => cs

/-- An environment that records how each encoder was made: which constructor, with which
option and encoder configuration; `rotatelogs.New` succeeds. -/
def recEnv : Env (String × Option × EncoderConfig) :=
  { NewJSONEncoder := fun opt cfg => ("json", opt, cfg)
    NewConsoleEncoder := fun opt cfg => ("console", opt, cfg)
    rotatelogsNew := fun _ _ => none
    durationString := fun d => toString d ++ "ns" }

/-! ## The facade -/

/-- The values passed in an `interface{}` argument list. -/
inductive Value where
  | nil
  | bool (b : Bool)
  | int (i : Int)
  | str (s : String)
  | dur (d : Duration)
  deriving DecidableEq, Repr

/-- The logging methods of a sugared logger: plain, template (`f`) and key-value (`w`). -/
inductive Method where
  | Debug
  | Debugf
  | Debugw
  | Info
  | Infof
  | Infow
  | Warn
  | Warnf
  | Warnw
  | Error
  | Errorf
  | Errorw
  | DPanic
  | DPanicf
  | DPanicw
  | Panic
  | Panicf
  | Panicw
  | Fatal
  | Fatalf
  | Fatalw
  deriving DecidableEq, Repr

/-- The level a logging method of the engine logs at. -/
def Method.level : Method → Level
  | .Debug | .Debugf | .Debugw => DebugLevel
  | .Info | .Infof | .Infow => InfoLevel
  | .Warn | .Warnf | .Warnw => WarnLevel
  | .Error | .Errorf | .Errorw => ErrorLevel
  | .DPanic | .DPanicf | .DPanicw => DPanicLevel
  | .Panic | .Panicf | .Panicw => PanicLevel
  | .Fatal | .Fatalf | .Fatalw => FatalLevel

/-- One call of a logging method: the method, the template or message when the method takes
one, and the remaining arguments. -/
structure SugarCall where
  method : Method
  msg : Maybe String
  args : List Value
  deriving DecidableEq, Repr

/-- The package-level variable a facade function calls a method on. -/
inductive LoggerVar where
  | textLogger
  | jsonLogger
  deriving DecidableEq, Repr

/-- The method calls a function body makes, in order, each with the variable it is made on. -/
abbrev Calls : Type := List (LoggerVar × SugarCall)

/-- Source: `Debug` (xlog.go). -/
def Debug (args : List Value) : Calls :=
  [(.jsonLogger, ⟨.Debug, none, args⟩)]

/-- Source: `Debugf` (xlog.go). -/
def Debugf (template : String) (args : List Value) : Calls :=
  [(.jsonLogger, ⟨.Debugf, some template, args⟩)]

/-- Source: `Info` (xlog.go). -/
def Info (args : List Value) : Calls :=
  [(.jsonLogger, ⟨.Info, none, args⟩)]

/-- Source: `Infof` (xlog.go). -/
def Infof (template : String) (args : List Value) : Calls :=
  [(.jsonLogger, ⟨.Infof, some template, args⟩)]

/-- Source: `Warn` (xlog.go). -/
def Warn (args : List Value) : Calls :=
  [(.jsonLogger, ⟨.Warn, none, args⟩)]

/-- Source: `Warnf` (xlog.go). -/
def Warnf (template : String) (args : List Value) : Calls :=
  [(.jsonLogger, ⟨.Warnf, some template, args⟩)]

/-- Source: `Error` (xlog.go). -/
def Error (args : List Value) : Calls :=
  [(.jsonLogger, ⟨.Error, none, args⟩)]

/-- Source: `Errorf` (xlog.go). -/
def Errorf (template : String) (args : List Value) : Calls :=
  [(.jsonLogger, ⟨.Errorf, some template, args⟩)]

/-- Source: `DPanic` (xlog.go). -/
def DPanic (args : List Value) : Calls :=
  [(.jsonLogger, ⟨.DPanic, none, args⟩)]

/-- Source: `DPanicf` (xlog.go). -/
def DPanicf (template : String) (args : List Value) : Calls :=
  [(.jsonLogger, ⟨.DPanicf, some template, args⟩)]

/-- Source: `Panic` (xlog.go). -/
def Panic (args : List Value) : Calls :=
  [(.jsonLogger, ⟨.Panic, none, args⟩)]

/-- Source: `Panicf` (xlog.go). -/
def Panicf (template : String) (args : List Value) : Calls :=
  [(.jsonLogger, ⟨.Panicf, some template, args⟩)]

/-- Source: `Fatal` (xlog.go). -/
def Fatal (args : List Value) : Calls :=
  [(.jsonLogger, ⟨.Fatal, none, args⟩)]

/-- Source: `Fatalf` (xlog.go). -/
def Fatalf (template : String) (args : List Value) : Calls :=
  [(.jsonLogger, ⟨.Fatalf, some template, args⟩)]

/-- Source: `CDebug` (xlog.go). -/
def CDebug (args : List Value) : Calls :=
  [(.textLogger, ⟨.Debug, none, args⟩)]

/-- Source: `CDebugf` (xlog.go). -/
def CDebugf (template : String) (args : List Value) : Calls :=
  [(.textLogger, ⟨.Debugf, some template, args⟩)]

/-- Source: `CInfo` (xlog.go). -/
def CInfo (args : List Value) : Calls :=
  [(.textLogger, ⟨.Info, none, args⟩)]

/-- Source: `CInfof` (xlog.go). -/
def CInfof (template : String) (args : List Value) : Calls :=
  [(.textLogger, ⟨.Infof, some template, args⟩)]

/-- Source: `CWarn` (xlog.go). -/
def CWarn (args : List Value) : Calls :=
  [(.textLogger, ⟨.Warn, none, args⟩)]

/-- Source: `CWarnf` (xlog.go). -/
def CWarnf (template : String) (args : List Value) : Calls :=
  [(.textLogger, ⟨.Warnf, some template, args⟩)]

/-- Source: `CError` (xlog.go). -/
def CError (args : List Value) : Calls :=
  [(.textLogger, ⟨.Error, none, args⟩)]

/-- Source: `CErrorf` (xlog.go). -/
def CErrorf (template : String) (args : List Value) : Calls :=
  [(.textLogger, ⟨.Errorf, some template, args⟩)]

/-- Source: `CDPanic` (xlog.go). -/
def CDPanic (args : List Value) : Calls :=
  [(.textLogger, ⟨.DPanic, none, args⟩)]

/-- Source: `CDPanicf` (xlog.go). -/
def CDPanicf (template : String) (args : List Value) : Calls :=
  [(.textLogger, ⟨.DPanicf, some template, args⟩)]

/-- Source: `CPanic` (xlog.go). -/
def CPanic (args : List Value) : Calls :=
  [(.textLogger, ⟨.Panic, none, args⟩)]

/-- Source: `CPanicf` (xlog.go). -/
def CPanicf (template : String) (args : List Value) : Calls :=
  [(.textLogger, ⟨.Panicf, some template, args⟩)]

/-- Source: `CFatal` (xlog.go). -/
def CFatal (args : List Value) : Calls :=
  [(.textLogger, ⟨.Fatal, none, args⟩)]

/-- Source: `CFatalf` (xlog.go). -/
def CFatalf (template : String) (args : List Value) : Calls :=
  [(.textLogger, ⟨.Fatalf, some template, args⟩)]

/-- The names of the facade functions. -/
inductive Facade where
  | Debug
  | Debugf
  | Info
  | Infof
  | Warn
  | Warnf
  | Error
  | Errorf
  | DPanic
  | DPanicf
  | Panic
  | Panicf
  | Fatal
  | Fatalf
  | CDebug
  | CDebugf
  | CInfo
  | CInfof
  | CWarn
  | CWarnf
  | CError
  | CErrorf
  | CDPanic
  | CDPanicf
  | CPanic
  | CPanicf
  | CFatal
  | CFatalf
  deriving DecidableEq, Repr

/-- The facade function of a name, called with a template (used by the `f` functions only)
and an argument list. -/
def Facade.run (f : Facade) (template : String) (args : List Value) : Calls :=
  match f with
  | .Debug => Xlog.Debug args
  | .Debugf => Xlog.Debugf template args
  | .Info => Xlog.Info args
  | .Infof => Xlog.Infof template args
  | .Warn => Xlog.Warn args
  | .Warnf => Xlog.Warnf template args
  | .Error => Xlog.Error args
  | .Errorf => Xlog.Errorf template args
  | .DPanic => Xlog.DPanic args
  | .DPanicf => Xlog.DPanicf template args
  | .Panic => Xlog.Panic args
  | .Panicf => Xlog.Panicf template args
  | .Fatal => Xlog.Fatal args
  | .Fatalf => Xlog.Fatalf template args
  | .CDebug => Xlog.CDebug args
  | .CDebugf => Xlog.CDebugf template args
  | .CInfo => Xlog.CInfo args
  | .CInfof => Xlog.CInfof template args
  | .CWarn => Xlog.CWarn args
  | .CWarnf => Xlog.CWarnf template args
  | .CError => Xlog.CError args
  | .CErrorf => Xlog.CErrorf template args
  | .CDPanic => Xlog.CDPanic args
  | .CDPanicf => Xlog.CDPanicf template args
  | .CPanic => Xlog.CPanic args
  | .CPanicf => Xlog.CPanicf template args
  | .CFatal => Xlog.CFatal args
  | .CFatalf => Xlog.CFatalf template args

/-- The severity a facade function's name states. -/
def Facade.namedLevel : Facade → Level
  | .Debug | .Debugf | .CDebug | .CDebugf => DebugLevel
  | .Info | .Infof | .CInfo | .CInfof => InfoLevel
  | .Warn | .Warnf | .CWarn | .CWarnf => WarnLevel
  | .Error | .Errorf | .CError | .CErrorf => ErrorLevel
  | .DPanic | .DPanicf | .CDPanic | .CDPanicf => DPanicLevel
  | .Panic | .Panicf | .CPanic | .CPanicf => PanicLevel
  | .Fatal | .Fatalf | .CFatal | .CFatalf => FatalLevel

/-- True for the facade functions whose name starts with `C`. -/
def Facade.isC : Facade → Bool
  | .CDebug | .CDebugf | .CInfo | .CInfof | .CWarn | .CWarnf | .CError | .CErrorf | .CDPanic | .CDPanicf | .CPanic | .CPanicf | .CFatal | .CFatalf => true
  | _ => false

/-- True for the facade functions that take a template. -/
def Facade.isTemplate : Facade → Bool
  | .Debugf | .Infof | .Warnf | .Errorf | .DPanicf | .Panicf | .Fatalf | .CDebugf | .CInfof | .CWarnf | .CErrorf | .CDPanicf | .CPanicf | .CFatalf => true
  | _ => false

/-! ## The database logger -/

/-- The log levels of the database library: Silent, Error, Warn, Info are 1 to 4. -/
abbrev GormLogLevel : Type := Int

def gormSilent : GormLogLevel := 1
def gormError : GormLogLevel := 2
def gormWarn : GormLogLevel := 3
def gormInfo : GormLogLevel := 4

/-- The configuration of the database library's logger (`gormlog.Config`). -/
structure GormConfig where
  SlowThreshold : Duration
  Colorful : Bool
  IgnoreRecordNotFoundError : Bool
  ParameterizedQueries : Bool
  LogLevel : GormLogLevel
  deriving DecidableEq, Repr

/-- Source: `GormLogger` (xloggorm.go 13-16). -/
structure GormLogger (Enc : Type) where
  logger : Maybe (SugaredLogger Enc)
  Config : GormConfig

/-- A non-nil Go error: the text `Error()` returns and whether `errors.Is` finds the database
library's `ErrRecordNotFound` in it. -/
structure GoError where
  text : String
  isRecordNotFound : Bool
  deriving DecidableEq, Repr

/-- Source: `NewGormLogger` (xloggorm.go 68-73). -/
def NewGormLogger {Enc : Type} (conf : GormConfig) (g : Globals Enc) : GormLogger Enc :=
  { logger := g.textLogger, Config := conf }

/-- Source: `GormLogger.LogMode` (xloggorm.go 18-33). The level it computes is dropped. -/
def GormLogger.LogMode {Enc : Type} (g : GormLogger Enc) (logLevel : GormLogLevel) :
    GormLogger Enc :=
  let zapLevel : Level := 0
  let zapLevel :=
    if logLevel = gormSilent then DPanicLevel
    else if logLevel = gormError then ErrorLevel
    else if logLevel = gormWarn then WarnLevel
    else if logLevel = gormInfo then InfoLevel
    else zapLevel
  let _zapLevel := zapLevel
  g

/-- Source: `GormLogger.Info` (xloggorm.go 35-38): the calls made on `g.logger`. -/
def GormLogger.Info {Enc : Type} (_g : GormLogger Enc) (s : String) (i : List Value) :
    List SugarCall :=
  [⟨.Infof, some s, i⟩]

/-- Source: `GormLogger.Warn` (xloggorm.go 40-43): the calls made on `g.logger`. -/
def GormLogger.Warn {Enc : Type} (_g : GormLogger Enc) (s : String) (i : List Value) :
    List SugarCall :=
  [⟨.Warnf, some s, i⟩]

/-- Source: `GormLogger.Error` (xloggorm.go 45-48): the calls made on `g.logger`. -/
def GormLogger.Error {Enc : Type} (_g : GormLogger Enc) (s : String) (i : List Value) :
    List SugarCall :=
  [⟨.Errorf, some s, i⟩]

/-- The function `errors.Is err ErrRecordNotFound` of Go: false at a nil error. -/
def errorsIsRecordNotFound (err : Maybe GoError) : Bool :=
  match err with
  | none => false
  | some e => e.isRecordNotFound

/-- Source: `GormLogger.Trace` (xloggorm.go 50-66). `cur` is the `Option` the level gate's
pointer refers to during the call, `elapsed` the value `time.Since(begin)` returns. The result
is the logging calls made on `g.logger`, in order; a method call through a nil pointer is a
panic, here `Except.error`. -/
def GormLogger.Trace {Enc : Type} (E : Env Enc) (g : GormLogger Enc) (cur : Option)
    (elapsed : Duration) (fc : Unit → String × Int) (err : Maybe GoError) :
    Except String (List SugarCall) :=
  match g.logger with
  | none => .error "invalid memory address or nil pointer dereference"
  | some logger =>
    if logger.Level cur ≥ DPanicLevel then .ok []
    else
      let elapsed := elapsed
      let (sql, rows) := fc ()
      if err.isSome && logger.Level cur ≤ ErrorLevel &&
          (!errorsIsRecordNotFound err || !g.Config.IgnoreRecordNotFoundError) then
        match err with
        | none => .error "invalid memory address or nil pointer dereference"
        | some e =>
          .ok [⟨.Errorw, some sql,
            [.str "elapsed", .dur elapsed, .str "rows", .int rows, .str "error", .str e.text]⟩]
      else if elapsed > g.Config.SlowThreshold && g.Config.SlowThreshold != 0 &&
          logger.Level cur ≥ WarnLevel then
        let slowLog := "SLOW SQL >= " ++ E.durationString g.Config.SlowThreshold
        .ok [⟨.Warnw, some sql,
          [.str "elapsed", .dur elapsed, .str "rows", .int rows, .str "warn", .str slowLog]⟩]
      else if logger.Level cur < InfoLevel then
        .ok [⟨.Debugw, some sql, [.str "elapsed", .dur elapsed, .str "rows", .int rows]⟩]
      else .ok []

/-! ## Concrete inputs -/

/-- The names `zapLogLevel` tells apart. -/
def levelNames : List String := ["debug", "info", "warn", "error"]

/-- The default configuration with `NoFile` set. -/
def noFileOption : Option := { DefaultOption with NoFile := true }

/-- The default configuration at level `debug`. -/
def debugOption : Option := { DefaultOption with Level := "debug" }

/-- The default configuration at level `error`. -/
def errorOption : Option := { DefaultOption with Level := "error" }

/-- A database logger configuration with a slow threshold of 100ms. -/
def slowConfig : GormConfig :=
  { SlowThreshold := 100 * Millisecond
    Colorful := false
    IgnoreRecordNotFoundError := false
    ParameterizedQueries := false
    LogLevel := gormInfo }

/-- A query closure: one statement, seven rows. -/
def sampleQuery : Unit → String × Int := fun _ => ("SELECT 1", 7)

/-- The default configuration with the debug level, after `"error"` was assigned to its
`Level` field. -/
def debugOptionLater : Option := { debugOption with Level := "error" }

/-- An error is present and it is not a record-not-found that the configuration ignores. -/
def unsuppressed (conf : GormConfig) (err : Maybe GoError) : Bool :=
  err.isSome && !(errorsIsRecordNotFound err && conf.IgnoreRecordNotFoundError)

/-- The elapsed time exceeds the slow threshold and the threshold is not zero. -/
def isSlow (conf : GormConfig) (elapsed : Duration) : Bool :=
  decide (elapsed > conf.SlowThreshold) && conf.SlowThreshold != 0

/-- The fields every call of `Trace` starts with: elapsed time and row count. -/
def traceFields (elapsed : Duration) (rows : Int) : List Value :=
  [.str "elapsed", .dur elapsed, .str "rows", .int rows]

/-- An error that is not record-not-found. -/
def otherError : GoError := ⟨"duplicate key", false⟩

/-! ## Severity names and defaults -/

/-- C3 (counterexample): `panic` and `fatal` are names of severities of the ordered set, yet
`zapLogLevel` gives `info` for both, not the severities they name. -/
theorem zapLogLevel_panic_fatal_are_info :
    (zapLogLevel "panic").Level = InfoLevel ∧ (zapLogLevel "panic").Level ≠ PanicLevel ∧
    Level.String PanicLevel = "panic" ∧
    (zapLogLevel "fatal").Level = InfoLevel ∧ (zapLogLevel "fatal").Level ≠ FatalLevel ∧
    Level.String FatalLevel = "fatal" := by
  decide

/-- C3 (amended): `zapLogLevel` is total; at each of the four names debug, info, warn, error it
returns the severity of that name, and at every other string it returns info. -/
theorem zapLogLevel_total_four_names (s : String) :
    (s ∈ levelNames →
      Level.String (zapLogLevel s).Level = s ∧
      (zapLogLevel s).Level ∈ [DebugLevel, InfoLevel, WarnLevel, ErrorLevel]) ∧
    (s ∉ levelNames → (zapLogLevel s).Level = InfoLevel) := by
  constructor
  · intro h
    simp only [levelNames, List.mem_cons, List.mem_singleton, List.not_mem_nil, or_false] at h
    rcases h with h | h | h | h <;> subst h <;> decide
  · intro h
    simp only [levelNames, List.mem_cons, List.mem_singleton, List.not_mem_nil, or_false,
      not_or] at h
    obtain ⟨h1, h2, h3, h4⟩ := h
    simp [zapLogLevel, h1, h2, h3, h4, NewAtomicLevelAt, AtomicLevel.Level]

/-- C4 (counterexample): the format `DefaultOption` sets is the constant `formatTXT`, the
string `txt`, not `text`. -/
theorem DefaultOption_format_not_text :
    DefaultOption.Format = "txt" ∧ DefaultOption.Format ≠ "text" := by
  decide

/-- C4 (amended): the fields of `DefaultOption` are logger name `xlog`, format `txt`, caller
on, stack off, severity `info`, output directory `./logs`, base file name `xlog`, rotation age
1, backup count 3, max size 10 * 1024 * 1024, compression off. -/
theorem DefaultOption_fields :
    DefaultOption.Name = "xlog" ∧ DefaultOption.Format = "txt" ∧
    DefaultOption.WritableCaller = true ∧ DefaultOption.WritableStack = false ∧
    DefaultOption.Level = "info" ∧ DefaultOption.Path = "./logs" ∧
    DefaultOption.FileName = "xlog" ∧ DefaultOption.MaxAge = 1 ∧
    DefaultOption.MaxBackups = 3 ∧ DefaultOption.MaxSize = 10 * 1024 * 1024 ∧
    DefaultOption.MaxSize = 10485760 ∧ DefaultOption.Compress = false := by
  decide

/-! ## The facade -/

/-- C2: every facade function makes exactly one call; the call is on `jsonLogger` for the
unprefixed functions and on `textLogger` for the C-prefixed ones, at the severity the function's
name states, with the template (for the `f` functions) and the arguments unchanged; no call is
made on the other logger. -/
theorem facade_forwards_once (f : Facade) (template : String) (args : List Value) :
    ∃ m : Method,
      f.run template args =
        [(if f.isC then LoggerVar.textLogger else LoggerVar.jsonLogger,
          ⟨m, if f.isTemplate then some template else none, args⟩)] ∧
      m.level = f.namedLevel ∧
      (f.run template args).length = 1 ∧
      (f.run template args).countP
        (fun c => c.1 = (if f.isC then LoggerVar.jsonLogger else LoggerVar.textLogger)) = 0 := by
  cases f <;> exact ⟨_, rfl, rfl, rfl, rfl⟩

/-! ## What `InitLevel` builds -/

theorem foldl_apply_core {Enc : Type} (options : List ZapOption) (log : Logger Enc) :
    (options.foldl (fun log o => o.apply log) log).core = log.core := by
  induction options generalizing log with
  | nil => rfl
  | cons o os ih =>
    rw [List.foldl_cons, ih]
    cases o <;> rfl

theorem zapNew_core {Enc : Type} (core : Core Enc) (options : List ZapOption) :
    (zapNew core options).core = core := by
  unfold zapNew
  rw [foldl_apply_core]

theorem Sugar_core {Enc : Type} (log : Logger Enc) : log.Sugar.base.core = log.core := rfl

/-- When `InitLevel` returns, both rotated-file writers were made and both package-level
loggers are set, each over a tee of a file core and a console core gated by `lowPriority`. -/
theorem InitLevel_built {Enc : Type} (E : Env Enc) (opt : Option) (g : Globals Enc)
    (h : (InitLevel E opt g).2 = none) :
    ∃ (jw tw : RotateLogs) (cfg consolecft : EncoderConfig) (js ts : SugaredLogger Enc),
      newRotateLog E opt opt.Path ".json.log" = .ok jw ∧
      newRotateLog E opt opt.Path ".log" = .ok tw ∧
      (InitLevel E opt g).1.jsonLogger = some js ∧
      (InitLevel E opt g).1.textLogger = some ts ∧
      js.base.core = .multi [⟨E.NewJSONEncoder opt cfg, .AddSync jw, lowPriority⟩,
        ⟨E.NewJSONEncoder opt cfg, .Lock .Stdout, lowPriority⟩] ∧
      ts.base.core = .multi [⟨E.NewConsoleEncoder opt cfg, .AddSync tw, lowPriority⟩,
        ⟨E.NewConsoleEncoder opt consolecft, .Lock .Stdout, lowPriority⟩] ∧
      cfg.EncodeLevel =
        (if opt.NoFile then .CapitalColorLevelEncoder else .CapitalLevelEncoder) ∧
      consolecft.EncodeLevel = .CapitalColorLevelEncoder := by
  unfold InitLevel at h ⊢
  cases hj : newRotateLog E opt opt.Path ".json.log" with
  | error e => simp [hj] at h
  | ok jw =>
    cases ht : newRotateLog E opt opt.Path ".log" with
    | error e => simp [hj, ht] at h
    | ok tw =>
      simp only []
      refine ⟨jw, tw, ?cfg, ?ccfg, _, _, rfl, rfl, rfl, rfl, ?c1, ?c2, ?e1, ?e2⟩
      case c1 => rw [Sugar_core, zapNew_core]; exact rfl
      case c2 => rw [Sugar_core, zapNew_core]; exact rfl
      case e1 => cases opt.NoFile <;> rfl
      case e2 => cases opt.NoFile <;> rfl

/-! ## The level gate -/

theorem lowPriority_iff (cur : Option) (s : Level) :
    lowPriority cur s = true ↔ s ≥ (zapLogLevel cur.Level).Level := by
  simp [lowPriority]

theorem zapLogLevel_range (name : String) :
    (zapLogLevel name).Level = DebugLevel ∨ (zapLogLevel name).Level = InfoLevel ∨
    (zapLogLevel name).Level = WarnLevel ∨ (zapLogLevel name).Level = ErrorLevel := by
  unfold zapLogLevel
  split_ifs <;> simp [NewAtomicLevelAt, AtomicLevel.Level]

theorem zapLogLevel_le_error (name : String) : (zapLogLevel name).Level ≤ ErrorLevel := by
  rcases zapLogLevel_range name with h | h | h | h <;> rw [h] <;> decide

theorem LevelOf_lowPriority (cur : Option) :
    LevelOf (lowPriority cur) = (zapLogLevel cur.Level).Level := by
  have hf : lowPriority cur = fun lvl => decide (lvl ≥ (zapLogLevel cur.Level).Level) := rfl
  rw [hf]
  rcases zapLogLevel_range cur.Level with h | h | h | h <;> rw [h] <;> decide

/-- The level of a tee of two cores gated by `lowPriority` is the gate's threshold. -/
theorem tee_Level {Enc : Type} (e1 e2 : Enc) (o1 o2 : WriteSyncer) (cur : Option) :
    Core.Level (.multi [⟨e1, o1, lowPriority⟩, ⟨e2, o2, lowPriority⟩]) cur =
      (zapLogLevel cur.Level).Level := by
  have hle := zapLogLevel_le_error cur.Level
  simp only [Core.Level, ioCore.Level, List.foldl_cons, List.foldl_nil, LevelOf_lowPriority]
  have h5 : (zapLogLevel cur.Level).Level < maxLevel :=
    lt_of_le_of_lt hle (by decide)
  simp [h5]

/-- A record logged through a tee of two cores gated by `lowPriority` is written by both
cores when the gate enables its level and by none otherwise. -/
theorem tee_check {Enc : Type} (s : SugaredLogger Enc) (c1 c2 : ioCore Enc)
    (hc : s.base.core = .multi [c1, c2]) (h1 : c1.LevelEnabler = lowPriority)
    (h2 : c2.LevelEnabler = lowPriority) (cur : Option) (lvl : Level) :
    s.check cur lvl = if lowPriority cur lvl then [c1, c2] else [] := by
  unfold SugaredLogger.check
  rw [hc]
  simp only [Core.Enabled, Core.Check, ioCore.Check, ioCore.Enabled, h1, h2, List.any_cons,
    List.any_nil, List.foldl_cons, List.foldl_nil, Bool.or_false, Bool.or_self]
  cases hg : lowPriority cur lvl <;> simp

/-- C1: when `InitLevel` has returned for an option whose level string is `L`, the gate
enables a severity `s` exactly when `s ≥ zapLogLevel L`; the JSON logger and the text logger
each consist of a file core and a console core, all four gated by that one gate; a record below
the threshold is written to no destination of either pipeline, a record at or above it to the
file and the console destination of both. -/
theorem gate_decides_all_four_cores {Enc : Type} (E : Env Enc) (opt : Option)
    (g : Globals Enc) (L : String) (s : Level) (hL : opt.Level = L)
    (h : (InitLevel E opt g).2 = none) :
    (lowPriority opt s = true ↔ s ≥ (zapLogLevel L).Level) ∧
    ∃ (js ts : SugaredLogger Enc) (jf jc tf tc : ioCore Enc),
      (InitLevel E opt g).1.jsonLogger = some js ∧
      (InitLevel E opt g).1.textLogger = some ts ∧
      js.base.core = .multi [jf, jc] ∧ ts.base.core = .multi [tf, tc] ∧
      jf.out.isFile = true ∧ jc.out.isStdout = true ∧
      tf.out.isFile = true ∧ tc.out.isStdout = true ∧
      jf.LevelEnabler = lowPriority ∧ jc.LevelEnabler = lowPriority ∧
      tf.LevelEnabler = lowPriority ∧ tc.LevelEnabler = lowPriority ∧
      (s < (zapLogLevel L).Level → js.writes opt s = [] ∧ ts.writes opt s = []) ∧
      (s ≥ (zapLogLevel L).Level →
        js.writes opt s = [jf.out, jc.out] ∧ ts.writes opt s = [tf.out, tc.out]) := by
  subst hL
  obtain ⟨jw, tw, cfg, ccfg, js, ts, -, -, hjs, hts, hjc, htc, -, -⟩ := InitLevel_built E opt g h
  refine ⟨lowPriority_iff opt s, js, ts, _, _, _, _, hjs, hts, hjc, htc, rfl, rfl, rfl, rfl,
    rfl, rfl, rfl, rfl, ?_, ?_⟩
  · intro hlt
    have hg : lowPriority opt s = false := by
      rw [← Bool.not_eq_true, lowPriority_iff]; exact not_le.mpr hlt
    simp [SugaredLogger.writes, tee_check js _ _ hjc rfl rfl, tee_check ts _ _ htc rfl rfl, hg]
  · intro hge
    have hg : lowPriority opt s = true := (lowPriority_iff opt s).mpr hge
    simp [SugaredLogger.writes, tee_check js _ _ hjc rfl rfl, tee_check ts _ _ htc rfl rfl, hg]

/-- C1 (witness): the default option, in an environment where the rotated files can be made,
and a record of level warn. -/
theorem gate_decides_all_four_cores_witness :
    DefaultOption.Level = "info" ∧
    (InitLevel recEnv DefaultOption Globals.initial).2 = none ∧
    (lowPriority DefaultOption WarnLevel = true ↔ WarnLevel ≥ (zapLogLevel "info").Level) ∧
    ∃ (js ts : SugaredLogger (String × Option × EncoderConfig))
      (jf jc tf tc : ioCore (String × Option × EncoderConfig)),
      (InitLevel recEnv DefaultOption Globals.initial).1.jsonLogger = some js ∧
      (InitLevel recEnv DefaultOption Globals.initial).1.textLogger = some ts ∧
      js.base.core = .multi [jf, jc] ∧ ts.base.core = .multi [tf, tc] ∧
      jf.out.isFile = true ∧ jc.out.isStdout = true ∧
      tf.out.isFile = true ∧ tc.out.isStdout = true ∧
      jf.LevelEnabler = lowPriority ∧ jc.LevelEnabler = lowPriority ∧
      tf.LevelEnabler = lowPriority ∧ tc.LevelEnabler = lowPriority ∧
      (WarnLevel < (zapLogLevel "info").Level →
        js.writes DefaultOption WarnLevel = [] ∧ ts.writes DefaultOption WarnLevel = []) ∧
      (WarnLevel ≥ (zapLogLevel "info").Level →
        js.writes DefaultOption WarnLevel = [jf.out, jc.out] ∧
        ts.writes DefaultOption WarnLevel = [tf.out, tc.out]) :=
  ⟨by decide, rfl,
    gate_decides_all_four_cores recEnv DefaultOption Globals.initial "info" WarnLevel
      (by decide) rfl⟩

theorem coresOf_multi {Enc : Type} (s : SugaredLogger Enc) (cs : List (ioCore Enc))
    (h : s.base.core = .multi cs) : coresOf (some s) = cs := by
  simp [coresOf, h]

/-- C10 (counterexample): `InitLevel` returns for an option at level `debug`; once `"error"` is
assigned to the option's `Level` field, all four cores refuse an info record, though the level
the option had when `InitLevel` was called admits it. -/
theorem gate_follows_later_assignment :
    (InitLevel recEnv debugOption Globals.initial).2 = none ∧
    debugOption.Level = "debug" ∧ debugOptionLater.Level = "error" ∧
    (coresOf (InitLevel recEnv debugOption Globals.initial).1.jsonLogger ++
      coresOf (InitLevel recEnv debugOption Globals.initial).1.textLogger).map
        (fun c => c.Enabled debugOptionLater InfoLevel) = [false, false, false, false] ∧
    (coresOf (InitLevel recEnv debugOption Globals.initial).1.jsonLogger ++
      coresOf (InitLevel recEnv debugOption Globals.initial).1.textLogger).map
        (fun c => c.Enabled debugOption InfoLevel) = [true, true, true, true] ∧
    decide (InfoLevel ≥ (zapLogLevel debugOption.Level).Level) = true := by
  decide

/-- C10 (amended): the gate reads `opt.Level` each time it is evaluated. For every severity `s`
and every later content `cur` of the option, each of the four cores enables `s` exactly when
`s ≥ zapLogLevel cur.Level`; the result is the one of `InitLevel` time when the `Level` field
still has the value it had then. -/
theorem gate_reads_current_level {Enc : Type} (E : Env Enc) (opt cur : Option)
    (g : Globals Enc) (s : Level) (h : (InitLevel E opt g).2 = none) :
    (coresOf (InitLevel E opt g).1.jsonLogger ++
      coresOf (InitLevel E opt g).1.textLogger).length = 4 ∧
    ∀ c ∈ coresOf (InitLevel E opt g).1.jsonLogger ++ coresOf (InitLevel E opt g).1.textLogger,
      (c.Enabled cur s = true ↔ s ≥ (zapLogLevel cur.Level).Level) ∧
      (cur.Level = opt.Level → c.Enabled cur s = c.Enabled opt s) := by
  obtain ⟨jw, tw, cfg, ccfg, js, ts, -, -, hjs, hts, hjc, htc, -, -⟩ := InitLevel_built E opt g h
  rw [hjs, hts, coresOf_multi js _ hjc, coresOf_multi ts _ htc]
  refine ⟨rfl, ?_⟩
  intro c hc
  have hen : c.LevelEnabler = lowPriority := by
    simp only [List.cons_append, List.nil_append, List.mem_cons, List.mem_singleton,
      List.not_mem_nil, or_false] at hc
    rcases hc with hc | hc | hc | hc <;> rw [hc]
  refine ⟨?_, ?_⟩
  · rw [ioCore.Enabled, hen]; exact lowPriority_iff cur s
  · intro hl
    simp only [ioCore.Enabled, hen, lowPriority, hl]

/-- C10 (witness): the option at level `debug`, later assigned `"error"`, and an info record. -/
theorem gate_reads_current_level_witness :
    (InitLevel recEnv debugOption Globals.initial).2 = none ∧
    (coresOf (InitLevel recEnv debugOption Globals.initial).1.jsonLogger ++
      coresOf (InitLevel recEnv debugOption Globals.initial).1.textLogger).length = 4 ∧
    ∀ c ∈ coresOf (InitLevel recEnv debugOption Globals.initial).1.jsonLogger ++
        coresOf (InitLevel recEnv debugOption Globals.initial).1.textLogger,
      (c.Enabled debugOptionLater InfoLevel = true ↔
        InfoLevel ≥ (zapLogLevel debugOptionLater.Level).Level) ∧
      (debugOptionLater.Level = debugOption.Level →
        c.Enabled debugOptionLater InfoLevel = c.Enabled debugOption InfoLevel) :=
  ⟨rfl, gate_reads_current_level recEnv debugOption debugOptionLater Globals.initial
    InfoLevel rfl⟩

/-! ## Encoders and destinations -/

/-- C8 (the code at the failing input): with `NoFile` set, `InitLevel` returns, the text
pipeline still has a file core, and the encoder of that core is made by `NewConsoleEncoder` from
a configuration whose level encoder is the colour one, not the plain one: the rotated file
receives coloured levels. The console core's configuration has the colour level encoder. -/
theorem noFile_text_file_core_is_coloured :
    noFileOption.NoFile = true ∧
    (InitLevel recEnv noFileOption Globals.initial).2 = none ∧
    (coresOf (InitLevel recEnv noFileOption Globals.initial).1.textLogger).map
        (fun c => (c.out.isFile, c.enc.1, c.enc.2.2.EncodeLevel)) =
      [(true, "console", LevelEncoder.CapitalColorLevelEncoder),
       (false, "console", LevelEncoder.CapitalColorLevelEncoder)] ∧
    LevelEncoder.CapitalColorLevelEncoder ≠ LevelEncoder.CapitalLevelEncoder := by
  decide

/-- The text pipeline's encoders where the guard on `NoFile` is taken: for every option with
`NoFile` false, the file core has an encoder made by `NewConsoleEncoder` from a configuration
whose level encoder is the plain one; for every option, the console core has an encoder made by
`NewConsoleEncoder` from a configuration whose level encoder is the colour one. -/
theorem text_encoders_plain_file_colour_console {Enc : Type} (E : Env Enc) (opt : Option)
    (g : Globals Enc) (h : (InitLevel E opt g).2 = none) :
    ∃ (ts : SugaredLogger Enc) (tf tc : ioCore Enc) (cfg consolecft : EncoderConfig),
      (InitLevel E opt g).1.textLogger = some ts ∧ ts.base.core = .multi [tf, tc] ∧
      tf.out.isFile = true ∧ tc.out.isStdout = true ∧
      tf.enc = E.NewConsoleEncoder opt cfg ∧ tc.enc = E.NewConsoleEncoder opt consolecft ∧
      (opt.NoFile = false → cfg.EncodeLevel = .CapitalLevelEncoder) ∧
      consolecft.EncodeLevel = .CapitalColorLevelEncoder := by
  obtain ⟨jw, tw, cfg, ccfg, js, ts, -, -, -, hts, -, htc, hcfg, hccfg⟩ :=
    InitLevel_built E opt g h
  refine ⟨ts, _, _, cfg, ccfg, hts, htc, rfl, rfl, rfl, rfl, ?_, hccfg⟩
  intro hn
  rw [hcfg, hn]
  rfl

/-- The text pipeline's encoders at the default option, whose `NoFile` is false. -/
theorem text_encoders_plain_file_colour_console_witness :
    (InitLevel recEnv DefaultOption Globals.initial).2 = none ∧
    ∃ (ts : SugaredLogger (String × Option × EncoderConfig))
      (tf tc : ioCore (String × Option × EncoderConfig)) (cfg consolecft : EncoderConfig),
      (InitLevel recEnv DefaultOption Globals.initial).1.textLogger = some ts ∧
      ts.base.core = .multi [tf, tc] ∧
      tf.out.isFile = true ∧ tc.out.isStdout = true ∧
      tf.enc = recEnv.NewConsoleEncoder DefaultOption cfg ∧
      tc.enc = recEnv.NewConsoleEncoder DefaultOption consolecft ∧
      (DefaultOption.NoFile = false → cfg.EncodeLevel = .CapitalLevelEncoder) ∧
      consolecft.EncodeLevel = .CapitalColorLevelEncoder :=
  ⟨rfl, text_encoders_plain_file_colour_console recEnv DefaultOption Globals.initial rfl⟩

/-- C9 (the code at the failing input): with `NoFile` set, `InitLevel` still makes both
rotated-file writers, and the JSON logger and the text logger each have a core that writes to
its rotated file next to the core that writes to standard output. -/
theorem noFile_still_builds_file_cores :
    noFileOption.NoFile = true ∧
    (InitLevel recEnv noFileOption Globals.initial).2 = none ∧
    (coresOf (InitLevel recEnv noFileOption Globals.initial).1.jsonLogger).map (fun c => c.out) =
      [.AddSync ⟨"./logs/xlog.%Y%m%d%H.json.log",
          [.WithLinkName "xlog", .WithRotationTime (Hour * 24), .WithRotationSize 10485760,
           .WithRotationCount 3]⟩,
       .Lock .Stdout] ∧
    (coresOf (InitLevel recEnv noFileOption Globals.initial).1.textLogger).map (fun c => c.out) =
      [.AddSync ⟨"./logs/xlog.%Y%m%d%H.log",
          [.WithLinkName "xlog", .WithRotationTime (Hour * 24), .WithRotationSize 10485760,
           .WithRotationCount 3]⟩,
       .Lock .Stdout] := by
  decide

/-! ## The database logger's `Trace` -/

/-- The logger `NewGormLogger` takes after `InitLevel` has returned is set, and its level is the
threshold of the gate. -/
theorem built_gorm_logger {Enc : Type} (E : Env Enc) (opt cur : Option) (g : Globals Enc)
    (conf : GormConfig) (h : (InitLevel E opt g).2 = none) :
    ∃ ts : SugaredLogger Enc,
      (NewGormLogger conf (InitLevel E opt g).1).logger = some ts ∧
      ts.Level cur = (zapLogLevel cur.Level).Level := by
  obtain ⟨jw, tw, cfg, ccfg, js, ts, -, -, -, hts, -, htc, -, -⟩ := InitLevel_built E opt g h
  refine ⟨ts, hts, ?_⟩
  rw [SugaredLogger.Level, htc, tee_Level]

theorem not_ge_DPanic (l : Level) (h : l ≤ ErrorLevel) : ¬ l ≥ DPanicLevel :=
  not_le.mpr (lt_of_le_of_lt h (by decide))

/-- With an unsuppressed error, `Trace` on a logger whose level is at most error makes the one
call `Errorw`. -/
theorem Trace_unsuppressed {Enc : Type} (E : Env Enc) (gl : GormLogger Enc)
    (ts : SugaredLogger Enc) (cur : Option) (elapsed : Duration) (fc : Unit → String × Int)
    (e : GoError) (hl : gl.logger = some ts) (hT : ts.Level cur ≤ ErrorLevel)
    (hu : unsuppressed gl.Config (some e) = true) :
    gl.Trace E cur elapsed fc (some e) =
      .ok [⟨.Errorw, some (fc ()).1,
        traceFields elapsed (fc ()).2 ++ [.str "error", .str e.text]⟩] := by
  have h3 : ¬ ts.Level cur ≥ DPanicLevel := not_ge_DPanic _ hT
  simp only [unsuppressed, Option.isSome_some, Bool.true_and] at hu
  simp only [GormLogger.Trace, hl, h3, if_false, Option.isSome_some, Bool.true_and, hT,
    decide_True]
  have hu2 : (!errorsIsRecordNotFound (some e) || !gl.Config.IgnoreRecordNotFoundError) = true := by
    rw [← Bool.not_and]; exact hu
  simp [hu2, traceFields]

/-- Without an unsuppressed error, `Trace` on a logger whose level is at most error and that is
not slow makes the one call `Debugw` when the level is below info and no call otherwise. -/
theorem Trace_quiet {Enc : Type} (E : Env Enc) (gl : GormLogger Enc)
    (ts : SugaredLogger Enc) (cur : Option) (elapsed : Duration) (fc : Unit → String × Int)
    (err : Maybe GoError) (hl : gl.logger = some ts) (hT : ts.Level cur ≤ ErrorLevel)
    (hu : unsuppressed gl.Config err = false) (hs : isSlow gl.Config elapsed = false) :
    gl.Trace E cur elapsed fc err =
      .ok (if ts.Level cur < InfoLevel then
        [⟨.Debugw, some (fc ()).1, traceFields elapsed (fc ()).2⟩] else []) := by
  have h3 : ¬ ts.Level cur ≥ DPanicLevel := not_ge_DPanic _ hT
  have hu2 : (err.isSome && decide (ts.Level cur ≤ ErrorLevel) &&
      (!errorsIsRecordNotFound err || !gl.Config.IgnoreRecordNotFoundError)) = false := by
    rw [← Bool.not_and, decide_eq_true hT, Bool.and_true]; exact hu
  have hs2 : (decide (elapsed > gl.Config.SlowThreshold) && gl.Config.SlowThreshold != 0 &&
      decide (ts.Level cur ≥ WarnLevel)) = false := by
    have : (decide (elapsed > gl.Config.SlowThreshold) && gl.Config.SlowThreshold != 0) =
        false := hs
    rw [this, Bool.false_and]
  simp only [GormLogger.Trace, hl, h3, if_false, hu2, hs2, Bool.false_eq_true]
  split_ifs <;> rfl

/-- Without an unsuppressed error, a slow `Trace` on a logger whose level is at most error makes
one call, `Warnw` or `Debugw`, or none. -/
theorem Trace_slow {Enc : Type} (E : Env Enc) (gl : GormLogger Enc)
    (ts : SugaredLogger Enc) (cur : Option) (elapsed : Duration) (fc : Unit → String × Int)
    (err : Maybe GoError) (hl : gl.logger = some ts) (hT : ts.Level cur ≤ ErrorLevel)
    (hu : unsuppressed gl.Config err = false) :
    gl.Trace E cur elapsed fc err = .ok [] ∨
    gl.Trace E cur elapsed fc err =
      .ok [⟨.Debugw, some (fc ()).1, traceFields elapsed (fc ()).2⟩] ∨
    gl.Trace E cur elapsed fc err =
      .ok [⟨.Warnw, some (fc ()).1, traceFields elapsed (fc ()).2 ++
        [.str "warn", .str ("SLOW SQL >= " ++ E.durationString gl.Config.SlowThreshold)]⟩] := by
  have h3 : ¬ ts.Level cur ≥ DPanicLevel := not_ge_DPanic _ hT
  have hu2 : (err.isSome && decide (ts.Level cur ≤ ErrorLevel) &&
      (!errorsIsRecordNotFound err || !gl.Config.IgnoreRecordNotFoundError)) = false := by
    rw [← Bool.not_and, decide_eq_true hT, Bool.and_true]; exact hu
  simp only [GormLogger.Trace, hl, h3, if_false, hu2, Bool.false_eq_true]
  split_ifs
  · right; right; rfl
  · right; left; rfl
  · left; rfl

theorem unsuppressed_iff (conf : GormConfig) (err : Maybe GoError) :
    unsuppressed conf err = true ↔
      (err ≠ none ∧
        ¬ (errorsIsRecordNotFound err = true ∧ conf.IgnoreRecordNotFoundError = true)) := by
  cases err with
  | none => simp [unsuppressed]
  | some e =>
    cases h1 : e.isRecordNotFound <;> cases h2 : conf.IgnoreRecordNotFoundError <;>
      simp [unsuppressed, errorsIsRecordNotFound, h1, h2]

theorem zapLogLevel_lt_info_iff (name : String) :
    (zapLogLevel name).Level < InfoLevel ↔ name = "debug" := by
  unfold zapLogLevel
  split_ifs with h1 h2 h3 h4 <;>
    simp [NewAtomicLevelAt, AtomicLevel.Level, h1, DebugLevel, InfoLevel, WarnLevel, ErrorLevel]

/-- What `Trace` does on a logger built by `InitLevel`: it returns, with at most one call. The
call is `Errorw` exactly with an unsuppressed error; without one it is `Warnw`, `Debugw` or
absent, and when the query is not slow it is `Debugw` at level debug and absent otherwise. -/
theorem Trace_built {Enc : Type} (E : Env Enc) (opt cur : Option) (g : Globals Enc)
    (conf : GormConfig) (elapsed : Duration) (fc : Unit → String × Int) (err : Maybe GoError)
    (h : (InitLevel E opt g).2 = none) :
    ∃ calls : List SugarCall,
      (NewGormLogger conf (InitLevel E opt g).1).Trace E cur elapsed fc err = .ok calls ∧
      (unsuppressed conf err = true →
        ∃ e, err = some e ∧ calls = [⟨.Errorw, some (fc ()).1,
          traceFields elapsed (fc ()).2 ++ [.str "error", .str e.text]⟩]) ∧
      (unsuppressed conf err = false →
        calls = [] ∨
        calls = [⟨.Debugw, some (fc ()).1, traceFields elapsed (fc ()).2⟩] ∨
        calls = [⟨.Warnw, some (fc ()).1, traceFields elapsed (fc ()).2 ++
          [.str "warn", .str ("SLOW SQL >= " ++ E.durationString conf.SlowThreshold)]⟩]) ∧
      (unsuppressed conf err = false → isSlow conf elapsed = false →
        calls = if cur.Level = "debug" then
          [⟨.Debugw, some (fc ()).1, traceFields elapsed (fc ()).2⟩] else []) := by
  obtain ⟨ts, hl, hT⟩ := built_gorm_logger E opt cur g conf h
  have hle : ts.Level cur ≤ ErrorLevel := by rw [hT]; exact zapLogLevel_le_error _
  cases hu : unsuppressed conf err with
  | true =>
    have hsome : err ≠ none := ((unsuppressed_iff conf err).mp hu).1
    obtain ⟨e, he⟩ := Option.ne_none_iff_exists'.mp hsome
    subst he
    exact ⟨_, Trace_unsuppressed E _ ts cur elapsed fc e hl hle hu,
      fun _ => ⟨e, rfl, rfl⟩, fun hf => by simp at hf, fun hf => by simp at hf⟩
  | false =>
    have hslow := Trace_slow E (NewGormLogger conf (InitLevel E opt g).1) ts cur elapsed fc err
      hl hle hu
    have hquiet := Trace_quiet E (NewGormLogger conf (InitLevel E opt g).1) ts cur elapsed fc
      err hl hle hu
    have hdebug : (ts.Level cur < InfoLevel) = (cur.Level = "debug") := by
      rw [hT]; exact propext (zapLogLevel_lt_info_iff _)
    rcases hslow with hs | hs | hs
    all_goals
      refine ⟨_, hs, fun hf => by simp at hf, fun _ => ?_, fun _ hq => ?_⟩
      · first
          | exact Or.inl rfl
          | exact Or.inr (Or.inl rfl)
          | exact Or.inr (Or.inr rfl)
      · have h2 := hquiet hq
        rw [hs] at h2
        simp only [hdebug] at h2
        exact Except.ok.inj h2

/-- C5: on a logger built by `InitLevel` (its level is one of debug, info, warn, error,
whatever the option holds), for every elapsed time and slow threshold, `Trace` returns, and it
calls `Errorw` if and only if the error is non-nil and is not a record-not-found with
`IgnoreRecordNotFoundError` set; in the other case no call at error level is made. -/
theorem Trace_error_path_iff {Enc : Type} (E : Env Enc) (opt cur : Option) (g : Globals Enc)
    (conf : GormConfig) (elapsed : Duration) (fc : Unit → String × Int) (err : Maybe GoError)
    (h : (InitLevel E opt g).2 = none) :
    (zapLogLevel cur.Level).Level ∈ [DebugLevel, InfoLevel, WarnLevel, ErrorLevel] ∧
    ∃ (ts : SugaredLogger Enc) (calls : List SugarCall),
      (NewGormLogger conf (InitLevel E opt g).1).logger = some ts ∧
      ts.Level cur = (zapLogLevel cur.Level).Level ∧
      (NewGormLogger conf (InitLevel E opt g).1).Trace E cur elapsed fc err = .ok calls ∧
      ((∃ c ∈ calls, c.method = .Errorw) ↔
        (err ≠ none ∧
          ¬ (errorsIsRecordNotFound err = true ∧ conf.IgnoreRecordNotFoundError = true))) ∧
      ((∃ c ∈ calls, c.method.level = ErrorLevel) ↔
        (err ≠ none ∧
          ¬ (errorsIsRecordNotFound err = true ∧ conf.IgnoreRecordNotFoundError = true))) := by
  refine ⟨?_, ?_⟩
  · have hr := zapLogLevel_range cur.Level
    simp only [List.mem_cons, List.mem_singleton, List.not_mem_nil, or_false]
    exact hr
  · obtain ⟨ts, hl, hT⟩ := built_gorm_logger E opt cur g conf h
    obtain ⟨calls, hc, hyes, hno, -⟩ := Trace_built E opt cur g conf elapsed fc err h
    refine ⟨ts, calls, hl, hT, hc, ?_⟩
    rw [← unsuppressed_iff]
    cases hu : unsuppressed conf err with
    | true =>
      obtain ⟨e, -, hcalls⟩ := hyes hu
      subst hcalls
      simp [Method.level]
    | false =>
      rcases hno hu with hcalls | hcalls | hcalls <;> subst hcalls <;>
        simp [Method.level, DebugLevel, WarnLevel, ErrorLevel]

/-- C5 (witness): the default option, the slow threshold of 100ms, no elapsed time, and an
error that is not record-not-found. -/
theorem Trace_error_path_iff_witness :
    (InitLevel recEnv DefaultOption Globals.initial).2 = none ∧
    (zapLogLevel DefaultOption.Level).Level ∈ [DebugLevel, InfoLevel, WarnLevel, ErrorLevel] ∧
    ∃ (ts : SugaredLogger (String × Option × EncoderConfig)) (calls : List SugarCall),
      (NewGormLogger slowConfig (InitLevel recEnv DefaultOption Globals.initial).1).logger =
        some ts ∧
      ts.Level DefaultOption = (zapLogLevel DefaultOption.Level).Level ∧
      (NewGormLogger slowConfig (InitLevel recEnv DefaultOption Globals.initial).1).Trace recEnv
        DefaultOption 0 sampleQuery (some otherError) = .ok calls ∧
      ((∃ c ∈ calls, c.method = .Errorw) ↔
        (some otherError ≠ none ∧
          ¬ (errorsIsRecordNotFound (some otherError) = true ∧
            slowConfig.IgnoreRecordNotFoundError = true))) ∧
      ((∃ c ∈ calls, c.method.level = ErrorLevel) ↔
        (some otherError ≠ none ∧
          ¬ (errorsIsRecordNotFound (some otherError) = true ∧
            slowConfig.IgnoreRecordNotFoundError = true))) :=
  ⟨rfl, Trace_error_path_iff recEnv DefaultOption DefaultOption Globals.initial slowConfig 0
    sampleQuery (some otherError) rfl⟩

/-- C6 (the code at the failing input): a logger built by `InitLevel` from the default option
(level info), slow threshold 100ms, elapsed 150ms, nil error: `Trace` makes no call at all. At
level debug it calls `Debugw`, not `Warnw`. The slow-query case asks for a logger level of at
least warn, so only the levels warn and error reach `Warnw`. -/
theorem Trace_slow_query_not_warned :
    slowConfig.SlowThreshold = 100 * Millisecond ∧
    isSlow slowConfig (150 * Millisecond) = true ∧
    (InitLevel recEnv DefaultOption Globals.initial).2 = none ∧
    (NewGormLogger slowConfig (InitLevel recEnv DefaultOption Globals.initial).1).Trace recEnv
      DefaultOption (150 * Millisecond) sampleQuery none = .ok [] ∧
    (InitLevel recEnv debugOption Globals.initial).2 = none ∧
    (NewGormLogger slowConfig (InitLevel recEnv debugOption Globals.initial).1).Trace recEnv
      debugOption (150 * Millisecond) sampleQuery none =
        .ok [⟨.Debugw, some "SELECT 1", traceFields (150 * Millisecond) 7⟩] :=
  ⟨by decide, by decide, rfl, rfl, rfl, rfl⟩

/-- C7 (counterexample): a logger built by `InitLevel` from the default option (level info),
nil error, elapsed 50ms under a slow threshold of 100ms: neither the error nor the slow
condition holds, and `Trace` makes no call, the debug log included. -/
theorem Trace_dispatches_to_none :
    (InitLevel recEnv DefaultOption Globals.initial).2 = none ∧
    unsuppressed slowConfig none = false ∧
    isSlow slowConfig (50 * Millisecond) = false ∧
    (NewGormLogger slowConfig (InitLevel recEnv DefaultOption Globals.initial).1).Trace recEnv
      DefaultOption (50 * Millisecond) sampleQuery none = .ok [] :=
  ⟨rfl, by decide, by decide, rfl⟩

/-- C7 (amended): on a logger built by `InitLevel`, for every input, `Trace` returns having
made at most one call, which is one of `Errorw`, `Warnw`, `Debugw` and carries the query text
as message and the elapsed time and row count as its first fields. The call is `Errorw` exactly
when an unsuppressed error is present. When no unsuppressed error is present and the query is
not slow, the call is `Debugw` at level debug and there is no call at the levels info, warn and
error. -/
theorem Trace_at_most_one_path {Enc : Type} (E : Env Enc) (opt cur : Option) (g : Globals Enc)
    (conf : GormConfig) (elapsed : Duration) (fc : Unit → String × Int) (err : Maybe GoError)
    (h : (InitLevel E opt g).2 = none) :
    ∃ calls : List SugarCall,
      (NewGormLogger conf (InitLevel E opt g).1).Trace E cur elapsed fc err = .ok calls ∧
      calls.length ≤ 1 ∧
      (∀ c ∈ calls, c.method ∈ [Method.Errorw, Method.Warnw, Method.Debugw] ∧
        c.msg = some (fc ()).1 ∧ c.args.take 4 = traceFields elapsed (fc ()).2) ∧
      ((∃ c ∈ calls, c.method = .Errorw) ↔ unsuppressed conf err = true) ∧
      (unsuppressed conf err = false → isSlow conf elapsed = false →
        calls = if cur.Level = "debug" then
          [⟨.Debugw, some (fc ()).1, traceFields elapsed (fc ()).2⟩] else []) := by
  obtain ⟨calls, hc, hyes, hno, hquiet⟩ := Trace_built E opt cur g conf elapsed fc err h
  refine ⟨calls, hc, ?_, ?_, ?_, hquiet⟩
  · cases hu : unsuppressed conf err with
    | true => obtain ⟨e, -, hcalls⟩ := hyes hu; subst hcalls; simp
    | false => rcases hno hu with hcalls | hcalls | hcalls <;> subst hcalls <;> simp
  · cases hu : unsuppressed conf err with
    | true => obtain ⟨e, -, hcalls⟩ := hyes hu; subst hcalls; simp [traceFields]
    | false =>
      rcases hno hu with hcalls | hcalls | hcalls <;> subst hcalls <;> simp [traceFields]
  · cases hu : unsuppressed conf err with
    | true => obtain ⟨e, -, hcalls⟩ := hyes hu; subst hcalls; simp
    | false => rcases hno hu with hcalls | hcalls | hcalls <;> subst hcalls <;> simp

/-- C7 (witness): the option at level debug, nil error, elapsed 50ms under a slow threshold of
100ms: the one call is `Debugw`. -/
theorem Trace_at_most_one_path_witness :
    (InitLevel recEnv debugOption Globals.initial).2 = none ∧
    ∃ calls : List SugarCall,
      (NewGormLogger slowConfig (InitLevel recEnv debugOption Globals.initial).1).Trace recEnv
        debugOption (50 * Millisecond) sampleQuery none = .ok calls ∧
      calls.length ≤ 1 ∧
      (∀ c ∈ calls, c.method ∈ [Method.Errorw, Method.Warnw, Method.Debugw] ∧
        c.msg = some (sampleQuery ()).1 ∧
        c.args.take 4 = traceFields (50 * Millisecond) (sampleQuery ()).2) ∧
      ((∃ c ∈ calls, c.method = .Errorw) ↔ unsuppressed slowConfig none = true) ∧
      (unsuppressed slowConfig none = false → isSlow slowConfig (50 * Millisecond) = false →
        calls = if debugOption.Level = "debug" then
          [⟨.Debugw, some (sampleQuery ()).1, traceFields (50 * Millisecond) (sampleQuery ()).2⟩]
          else []) :=
  ⟨rfl, Trace_at_most_one_path recEnv debugOption debugOption Globals.initial slowConfig
    (50 * Millisecond) sampleQuery none rfl⟩

end Xlog
